import Mathlib

/-!
Verification of the orchestration / follow-up decision engine of a
telecom-support chatbot (`backend/orchestrator.py`).

The Python code is shallowly embedded: every decision function
(`_get_query_complexity`, `_select_strategy`, `FollowUpManager`,
`_get_mcp_data`, `orchestrate`, `orchestrate_with_followup`) becomes an
executable Lean function over explicit state.  External collaborators
(language-model generation, retrieval, the five deterministic MCP tools)
are parameters returning `Except String String`, mirroring calls that may
raise.  Python's `s in t` substring test is `hasSub`, `re.match` with
anchored patterns is string equality, unanchored `re.match` is
`String.startsWith`, and the `\d{3,4}` extraction used throughout is
`extractNums`.  Wall-clock time is an explicit `Nat` argument; the random
choice of a clarifying question is an explicit `Nat` index, as the spec
directs for testability.
-/

/-- `pat` occurs as a contiguous sublist of `s`. -/
def subOf (pat : List Char) : List Char → Bool
  | [] => pat.isEmpty
  | c :: cs => pat.isPrefixOf (c :: cs) || subOf pat cs

/-- Python `pat in s` substring containment over strings. -/
def hasSub (s pat : String) : Bool :=
  subOf pat.toList s.toList

/-- Python `any(char.isdigit() for char in s)`. -/
def hasDigit (s : String) : Bool :=
  s.toList.any (fun c => c.isDigit)

/-- Python `s.lower()` (ASCII case folding), list-based so that it
evaluates by kernel reduction. -/
def pyLower (s : String) : String :=
  String.mk (s.toList.map Char.toLower)

/-- Python `s.strip()`: drop leading and trailing whitespace. -/
def pyStrip (s : String) : String :=
  String.mk (((s.toList.dropWhile (fun c => c.isWhitespace)).reverse.dropWhile
    (fun c => c.isWhitespace)).reverse)

/-- Maximal non-whitespace runs — the pieces of Python `s.split()`.  The
second argument accumulates the (reversed) current run. -/
def wordRuns : List Char → List Char → List (List Char)
  | [], acc => if acc.isEmpty then [] else [acc.reverse]
  | c :: cs, acc =>
    if c.isWhitespace then
      if acc.isEmpty then wordRuns cs [] else acc.reverse :: wordRuns cs []
    else wordRuns cs (c :: acc)

/-- Python `s.startswith(p)` / anchored `re.match` on a literal pattern. -/
def startsWithL (s p : String) : Bool :=
  p.toList.isPrefixOf s.toList

/-- Python `s.title()` on the single-word city names: upper-case the
first character. -/
def pyCapitalize (s : String) : String :=
  match s.toList with
  | [] => ""
  | c :: cs => String.mk (c.toUpper :: cs)

/-- Python `int(s)` on an all-digit string (the regex groups are always
digits), list-based so that it evaluates by kernel reduction. -/
def pyIntOfDigits (s : String) : Nat :=
  s.toList.foldl (fun n c => n * 10 + (c.toNat - 48)) 0

/-- Python `len(s.split())`: number of maximal non-whitespace runs. -/
def wordCount (s : String) : Nat :=
  (wordRuns s.toList []).length

/-- Cut one maximal digit run into the groups `re.findall` yields for
`\d{3,4}`: greedily 4 digits per match, a trailing run shorter than 3
digits yields nothing. -/
def chunkRun : List Char → List String
  | a :: b :: c :: d :: rest => String.mk [a, b, c, d] :: chunkRun rest
  | [a, b, c] => [String.mk [a, b, c]]
  | _ => []

/-- Maximal digit runs of a character list, left to right.  The second
argument accumulates the (reversed) current run. -/
def digitRuns : List Char → List Char → List (List Char)
  | [], acc => if acc.isEmpty then [] else [acc.reverse]
  | c :: cs, acc =>
    if c.isDigit then digitRuns cs (c :: acc)
    else if acc.isEmpty then digitRuns cs []
    else acc.reverse :: digitRuns cs []

/-- Python `re.findall(r'\d{3,4}', s)` (also `re.findall(r'₹?(\d{3,4})', s)`:
the currency prefix is optional, so the groups coincide). -/
def extractNums (s : String) : List String :=
  ((digitRuns s.toList []).map chunkRun).flatten

/-- Python `re.search(r'₹?(\d{3,4})', s)`: first captured group, if any. -/
def firstNum (s : String) : Option String :=
  (extractNums s).head?

/-- Functional store (Python dict): point update. -/
def upd (f : String → Option α) (k : String) (v : α) : String → Option α :=
  fun x => if x = k then some v else f x

/-- Functional store (Python dict): deletion. -/
def del (f : String → Option α) (k : String) : String → Option α :=
  fun x => if x = k then none else f x

/-! ## FollowUpManager (`orchestrator.py` lines 25–204) -/

/-- `ambiguous_patterns['vague_plan']['patterns']` — all anchored `^...$`,
so `re.match` means string equality. -/
def vaguePlanPatterns : List String :=
  ["plan", "best plan", "good plan", "plans", "recharge", "mobile plan", "jio plan"]

/-- `ambiguous_patterns['incomplete_comparison']['patterns']` (anchored). -/
def incompleteComparisonPatterns : List String :=
  ["compare", "comparison", "which is better", "compare plans", "vs"]

/-- `ambiguous_patterns['missing_location']['patterns']` (anchored). -/
def missingLocationPatterns : List String :=
  ["5g", "5g availability", "is 5g available", "check 5g", "5g coverage"]

/-- `ambiguous_patterns['unclear_budget']['patterns']` — unanchored, and
Python `re.match` matches at the start of the string only, so these are
prefix patterns. -/
def unclearBudgetPatterns : List String :=
  ["cheap", "cheapest", "affordable", "budget plan", "economical", "low cost"]

/-- `ambiguous_patterns['missing_user_type']['patterns']` — each begins
with `^` and has no `$`, so these are prefix patterns. -/
def missingUserTypePatterns : List String :=
  ["recommend", "suggest", "what should i", "which plan for me", "best for me"]

/-- `ambiguous_patterns['vague_plan']['follow_ups']`. -/
def vaguePlanFollowUps : List String :=
  ["I\x27d be happy to help you find the perfect plan! Could you tell me:\n• What\x27s your budget range? (e.g., under ₹300, ₹300-500)\n• How much data do you typically use? (light: <1GB, medium: 1-2GB, heavy: 3GB+)\n• Are you a student, professional, or looking for family plans?",
   "To recommend the best plan, could you share your requirements?\n• Budget: ₹___ \n• Primary use: Work/Study/Entertainment?\n• Current data usage per day?"]

/-- `ambiguous_patterns['incomplete_comparison']['follow_ups']`. -/
def comparisonFollowUps : List String :=
  ["I can help you compare plans! Which specific plans would you like to compare?\n• For example: \x27Compare 299 vs 399\x27\n• Or tell me your budget and I\x27ll compare suitable options",
   "Which plans should I compare for you?\n• Popular comparisons: ₹299 vs ₹399, ₹199 vs ₹299\n• Or specify any two plan prices"]

/-- `ambiguous_patterns['missing_location']['follow_ups']`. -/
def locationFollowUps : List String :=
  ["I\x27ll check 5G availability for you! Which city are you asking about?\n• Major cities with 5G: Mumbai, Delhi, Bangalore, Chennai, Kolkata\n• Just tell me your city name",
   "To check 5G coverage, please specify your location:\n• City: ___\n• Or share your area/region"]

/-- `ambiguous_patterns['unclear_budget']['follow_ups']`. -/
def budgetFollowUps : List String :=
  ["I\x27ll find you the most affordable option! What\x27s your maximum budget?\n• Under ₹200?\n• ₹200-300?\n• ₹300-500?",
   "To find the best budget plan, could you specify:\n• Maximum amount: ₹___\n• Minimum data needed: ___GB/day"]

/-- `ambiguous_patterns['missing_user_type']['follow_ups']`. -/
def userTypeFollowUps : List String :=
  ["I\x27ll recommend the perfect plan for you! Please tell me:\n• Are you a: Student/Professional/Family user?\n• Daily data usage: Light (<1GB), Medium (1-2GB), Heavy (3GB+)?\n• Budget preference?",
   "To personalize my recommendation:\n• Your usage type: Work/Study/Entertainment/General?\n• How many connections do you need?\n• Any specific features needed (5G, OTT apps)?"]

/-- `ambiguous_patterns['vague_problem']['follow_ups']`. -/
def problemFollowUps : List String :=
  ["I\x27m here to help! What would you like assistance with?\n• Finding a new plan?\n• Comparing existing plans?\n• Understanding plan benefits?\n• 5G availability?\n• JioFiber broadband?",
   "How can I assist you today?\n• 📱 Mobile plans and recharges\n• 🏠 JioFiber broadband\n• 📊 Plan comparisons\n• 💡 Recommendations\nPlease tell me more!"]

/-- Category test for `vague_plan` (anchored regexes ⇒ equality). -/
def matchesVaguePlan (ql : String) : Bool :=
  vaguePlanPatterns.contains ql

/-- Category test for `incomplete_comparison`. -/
def matchesIncompleteComparison (ql : String) : Bool :=
  incompleteComparisonPatterns.contains ql

/-- Category test for `missing_location`. -/
def matchesMissingLocation (ql : String) : Bool :=
  missingLocationPatterns.contains ql

/-- Category test for `unclear_budget` (`re.match` on an unanchored
pattern ⇒ prefix). -/
def matchesUnclearBudget (ql : String) : Bool :=
  unclearBudgetPatterns.any (fun p => startsWithL ql p)

/-- Category test for `missing_user_type` (prefix patterns). -/
def matchesMissingUserType (ql : String) : Bool :=
  missingUserTypePatterns.any (fun p => startsWithL ql p)

/-- Category test for `vague_problem`: `^help$`, `^i need help$`,
`^assist` (prefix), `^support$`, `^issue$`, `^problem$`. -/
def matchesVagueProblem (ql : String) : Bool :=
  ql = "help" || ql = "i need help" || startsWithL ql "assist" ||
    ql = "support" || ql = "issue" || ql = "problem"

/-- `random.choice(pool)` abstracted into an injected index, as the spec
directs: the `rnd`-th element modulo the pool size. -/
def choosePool (pool : List String) (rnd : Nat) : String :=
  pool.getD (rnd % pool.length) ""

/-- `FollowUpManager.needs_follow_up` (lines 102–123): first matching
category wins, in the dict insertion order; then the short-query
fallback.  Returns `(follow-up question, context_type)` when positive. -/
def needsFollowUp (rnd : Nat) (query : String) : Option (String × String) :=
  let ql := pyStrip (pyLower query)
  if matchesVaguePlan ql then
    some (choosePool vaguePlanFollowUps rnd, "plan_recommendation")
  else if matchesIncompleteComparison ql then
    some (choosePool comparisonFollowUps rnd, "comparison")
  else if matchesMissingLocation ql then
    some (choosePool locationFollowUps rnd, "5g_check")
  else if matchesUnclearBudget ql then
    some (choosePool budgetFollowUps rnd, "budget_plan")
  else if matchesMissingUserType ql then
    some (choosePool userTypeFollowUps rnd, "recommendation")
  else if matchesVagueProblem ql then
    some (choosePool problemFollowUps rnd, "general_help")
  else if wordCount query ≤ 2 ∧ ¬hasDigit query ∧
      (hasSub ql "plan" || hasSub ql "recharge") then
    some (vaguePlanFollowUps.getD 0 "", "plan_recommendation")
  else none

/-- A pending follow-up record (`store_context`, lines 125–131). -/
structure PendingCtx where
  original_query : String
  context_type : String
  timestamp : Nat
  deriving DecidableEq

/-- `usage_patterns` of the `plan_recommendation` merge branch, in dict
insertion order. -/
def usagePatternsList : List (String × String) :=
  [("light", "1GB"), ("medium", "2GB"), ("heavy", "3GB"),
   ("<1", "1GB"), ("1-2", "2GB"), ("3+", "3GB"), ("2gb", "2GB"), ("3gb", "3GB")]

/-- Usage extraction of `merge_with_context`: first matching pattern wins,
default `"2GB"`. -/
def usageOf (ans : String) : String :=
  match usagePatternsList.find? (fun pv => hasSub (pyLower ans) pv.1) with
  | some pv => pv.2
  | none => "2GB"

/-- User-type extraction of `merge_with_context` (lines 170–176). -/
def userTypeOf (ans : String) : String :=
  let al := pyLower ans
  if hasSub al "student" then "student"
  else if hasSub al "professional" || hasSub al "work" then "professional"
  else if hasSub al "family" then "family"
  else "general"

/-- The per-context-type enhanced-query builder of
`FollowUpManager.merge_with_context` (lines 142–204). -/
def mergeEnhanced (ctype orig ans : String) : String :=
  if ctype = "plan_recommendation" then
    let budget := (firstNum ans).getD "500"
    "Recommend best " ++ userTypeOf ans ++ " plan under ₹" ++ budget ++
      " with " ++ usageOf ans ++ " daily data"
  else if ctype = "comparison" then
    match extractNums ans with
    | a :: b :: _ => "Compare ₹" ++ a ++ " vs ₹" ++ b ++ " plans"
    | _ => "Compare plans: " ++ ans
  else if ctype = "5g_check" then
    "Check 5G availability in " ++ ans
  else if ctype = "budget_plan" then
    match firstNum ans with
    | some b => "Best plans under ₹" ++ b
    | none => "Cheapest plans " ++ ans
  else
    orig ++ " - " ++ ans

/-! ## Complexity classifier (`_get_query_complexity`, lines 541–595) -/

/-- The pure-greeting list. -/
def greetingsList : List String :=
  ["hi", "hello", "hey", "namaste", "good morning", "good evening"]

/-- The acknowledgment list (`thanks`). -/
def thanksList : List String :=
  ["thanks", "thank you", "bye", "goodbye", "ok", "okay"]

/-- `force_tool_keywords`: any of these prevents `simple`. -/
def forceToolKeywords : List String :=
  ["199", "299", "399", "599", "999", "1499",
   "plan", "price", "cost", "rupee", "₹", "recharge",
   "prepaid", "postpaid", "mobile", "fiber", "broadband",
   "5g", "data", "validity", "gb", "mbps", "speed",
   "unlimited", "calls", "sms", "ott", "apps",
   "details", "show", "tell", "what", "which", "how",
   "give", "provide", "explain", "list",
   "compare", "versus", "vs", "better", "best", "good",
   "difference", "choose", "recommend", "suggest",
   "student", "family", "professional", "business",
   "work", "home", "office",
   "jio", "available", "offer", "benefit", "feature"]

/-- The comparison/aggregation-intent terms that upgrade `medium` to
`complex`. -/
def complexTerms : List String :=
  ["compare", "versus", "vs", "calculate", "design",
   "bundle", "complete solution", "multiple", "all"]

/-- WH-words of the question-indicator check. -/
def whWords : List String :=
  ["what", "which", "how", "when", "where", "why"]

/-- `JioOrchestrator._get_query_complexity`. -/
def getQueryComplexity (query : String) : String :=
  let ql := pyStrip (pyLower query)
  if greetingsList.contains ql ∧ wordCount query ≤ 2 then "simple"
  else if thanksList.contains ql then "simple"
  else if forceToolKeywords.any (fun k => hasSub ql k) then
    if complexTerms.any (fun k => hasSub ql k) then "complex" else "medium"
  else if hasSub query "?" ||
      whWords.any (fun w => ((wordRuns ql.toList []).map (fun l => String.mk l)).contains w) then
    "medium"
  else "medium"

/-! ## Strategy selector (`_select_strategy`, lines 986–1010) -/

/-- Urgency terms (→ `parallel`). -/
def urgencyTerms : List String := ["urgent", "asap", "immediately", "now", "quick"]

/-- Comparison terms (→ `consensus`). -/
def comparisonStrategyTerms : List String :=
  ["compare", "versus", "vs", "which is better", "difference"]

/-- Bundling terms (→ `hierarchical`). -/
def bundleTerms : List String :=
  ["complete solution", "bundle", "family plan", "design", "multiple", "everything"]

/-- `JioOrchestrator._select_strategy`.  A `none` (or empty, Python-falsy)
complexity argument recomputes the complexity. -/
def selectStrategy (query : String) (complexity : Option String) : String :=
  let ql := pyLower query
  let c := match complexity with
    | none => getQueryComplexity query
    | some s => if s = "" then getQueryComplexity query else s
  if c = "simple" then "direct"
  else if urgencyTerms.any (fun k => hasSub ql k) then "parallel"
  else if comparisonStrategyTerms.any (fun k => hasSub ql k) then "consensus"
  else if bundleTerms.any (fun k => hasSub ql k) then "hierarchical"
  else "sequential"

/-! ## Canned replies and fallback (lines 1012–1062) -/

/-- The canned greeting reply of `_handle_direct_response`. -/
def directGreetingText : String :=
  "Hello! 👋 Welcome to Jio AI Assistant!\n\nI can help you with:\n• 📱 Mobile Plans (₹199, ₹299, ₹399, ₹599)\n• 🏠 JioFiber Broadband (₹699, ₹999, ₹1499)\n• 🚀 5G Services (Free with all plans!)\n• 💰 Personalized recommendations\n\nWhat would you like to know today?"

/-- The canned thanks reply. -/
def directThanksText : String :=
  "You\x27re welcome! 😊 Feel free to ask if you need any more information about Jio plans or services!"

/-- The canned goodbye reply. -/
def directGoodbyeText : String :=
  "Goodbye! 👋 Thank you for choosing Jio. Have a great day!"

/-- `JioOrchestrator._handle_direct_response`: substring checks, in order;
`none` models Python's `{"response": None}`. -/
def handleDirectResponse (query : String) : Option String :=
  let ql := pyStrip (pyLower query)
  if greetingsList.any (fun g => hasSub ql g) then some directGreetingText
  else if ["thanks", "thank you", "dhanyawad"].any (fun w => hasSub ql w) then
    some directThanksText
  else if ["bye", "goodbye", "see you"].any (fun w => hasSub ql w) then
    some directGoodbyeText
  else none

/-- `JioOrchestrator._get_intelligent_fallback` (lines 1045–1062): a fixed
text, independent of the query. -/
def intelligentFallback : String :=
  "I apologize for the inconvenience. Let me provide you with our popular plans:\n\n📱 **Mobile Plans:**\n• ₹199 - 1.5GB/day for 28 days\n• ₹299 - 2GB/day for 28 days\n• ₹399 - 3GB/day for 56 days (Best Value!)\n• ₹599 - 3GB/day for 84 days\n\n🏠 **JioFiber:**\n• ₹699 - 30 Mbps\n• ₹999 - 100 Mbps with OTT apps\n• ₹1499 - 300 Mbps with Netflix & Prime\n\nAll plans include unlimited calls and free 5G!\n\nPlease try rephrasing your question or ask about specific plans!"

/-! ## MCP tool aggregation (`_get_mcp_data`, lines 400–539)

The five deterministic tools are opaque collaborators returning
`Except String String`; an `Except.error` models a raised exception.  The
Python body guards all six checks with a single `try/except` whose
handler returns the entries accumulated so far, so each embedded step
returns `(entries, trace of calls made, aborted?)` and the chain stops at
the first aborting step. -/

/-- The MCP tool surface consumed by the aggregator. -/
structure MCPClient where
  search_plans : String → String → Except String String
  get_plan_details : String → Except String String
  compare_plans : String → String → Except String String
  check_5g_availability : String → Except String String
  recommend_plan : String → String → Option Nat → Except String String

/-- One labeled entry of the tool-context bundle. -/
abbrev Entry := String × String

/-- Python dict insertion: an existing key keeps its position and gets the
new value, a new key is appended. -/
def addEntry (l : List Entry) (k v : String) : List Entry :=
  if l.any (fun e => e.1 = k) then
    l.map (fun e => if e.1 = k then (k, v) else e)
  else l ++ [(k, v)]

/-- `plan_keywords` of check 1. -/
def planKeywords : List String :=
  ["plan", "mobile", "recharge", "prepaid", "postpaid",
   "fiber", "broadband", "jio", "data", "validity"]

/-- `comparison_keywords` of check 3. -/
def mcpComparisonKeywords : List String :=
  ["compare", "vs", "versus", "better", "difference", "which"]

/-- The fixed city list of check 4. -/
def cityList : List String :=
  ["mumbai", "delhi", "bangalore", "chennai", "kolkata",
   "hyderabad", "pune", "ahmedabad", "jaipur", "lucknow",
   "kanpur", "nagpur", "visakhapatnam", "bhopal", "patna"]

/-- `popular_alternatives` of check 3. -/
def popularAlternative (p : String) : Option String :=
  if p = "199" then some "299"
  else if p = "299" then some "399"
  else if p = "399" then some "599"
  else none

/-- `user_indicators` of check 5, in dict insertion order. -/
def userIndicators : List (String × List String) :=
  [("student", ["student", "college", "university", "study", "campus"]),
   ("family", ["family", "home", "parents", "kids", "household"]),
   ("professional", ["professional", "work", "office", "business", "job", "meeting"]),
   ("business", ["business", "company", "enterprise", "corporate", "startup"])]

/-- `recommendation_keywords` of check 5. -/
def recommendationKeywords : List String :=
  ["recommend", "suggest", "best", "good", "suitable", "ideal"]

/-- Drop leading whitespace (regex `\s*`). -/
def skipWs (cs : List Char) : List Char :=
  cs.dropWhile (fun c => c.isWhitespace)

/-- Match the tail `\s*₹?\s*(\d{3,4})` of the budget regexes at the head
of `cs`, after matching the literal `tokens` separated by `\s*`. -/
def matchTokensNum (tokens : List String) (cs : List Char) : Option String :=
  match tokens with
  | [] =>
    let cs1 : List Char := skipWs cs
    let cs2 : List Char := match cs1 with
      | c :: rest => if c = '₹' then skipWs rest else cs1
      | [] => cs1
    let ds : List Char := cs2.takeWhile (fun c => c.isDigit)
    if 3 ≤ ds.length then some (String.mk (ds.take 4)) else none
  | t :: ts =>
    if t.toList.isPrefixOf cs then matchTokensNum ts (skipWs (cs.drop t.length))
    else none

/-- `re.search` of one budget regex: leftmost position where the token
pattern followed by a 3–4-digit group matches. -/
def searchTokens (tokens : List String) : List Char → Option String
  | [] => matchTokensNum tokens []
  | c :: rest =>
    match matchTokensNum tokens (c :: rest) with
    | some v => some v
    | none => searchTokens tokens rest

/-- The five `budget_patterns` of check 5 as literal tokens separated by
`\s*` (note `less\s*than`). -/
def budgetTokenPatterns : List (List String) :=
  [["under"], ["budget"], ["less", "than"], ["max"], ["below"]]

/-- Budget extraction of check 5: first pattern (in order) with a match
anywhere in the lowercased query. -/
def extractBudget (ql : String) : Option Nat :=
  (budgetTokenPatterns.findSome? (fun tokens => searchTokens tokens ql.toList)).map
    pyIntOfDigits

/-- Check 1: plan search. -/
def mcpStep1 (c : MCPClient) (q ql : String) (acc : List Entry) :
    List Entry × List String × Bool :=
  if planKeywords.any (fun k => hasSub ql k) then
    match c.search_plans q "all" with
    | .ok v =>
      (if v ≠ "" ∧ ¬(hasSub v "No plans found") then addEntry acc "plan_search" v else acc,
       ["search_plans"], false)
    | .error _ => (acc, ["search_plans"], true)
  else (acc, [], false)

/-- Check 2: per-number plan details, one call per qualifying 3–4-digit
number. -/
def mcpStep2 (c : MCPClient) (prices : List String) (acc : List Entry) :
    List Entry × List String × Bool :=
  match prices with
  | [] => (acc, [], false)
  | p :: ps =>
    if 100 ≤ pyIntOfDigits p ∧ pyIntOfDigits p ≤ 5000 then
      match c.get_plan_details p with
      | .ok v =>
        let acc1 := if v ≠ "" ∧ ¬(hasSub v "Could not find") then
          addEntry acc ("plan_" ++ p) v else acc
        let r := mcpStep2 c ps acc1
        (r.1, ("get_plan_details " ++ p) :: r.2.1, r.2.2)
      | .error _ => (acc, [("get_plan_details " ++ p)], true)
    else mcpStep2 c ps acc

/-- Check 3: comparison. -/
def mcpStep3 (c : MCPClient) (ql : String) (prices : List String) (acc : List Entry) :
    List Entry × List String × Bool :=
  if mcpComparisonKeywords.any (fun k => hasSub ql k) then
    match prices with
    | p1 :: p2 :: _ =>
      match c.compare_plans p1 p2 with
      | .ok v =>
        (if v ≠ "" ∧ ¬(hasSub v "Could not compare") then addEntry acc "comparison" v else acc,
         ["compare_plans"], false)
      | .error _ => (acc, ["compare_plans"], true)
    | [p1] =>
      match popularAlternative p1 with
      | some alt =>
        match c.compare_plans p1 alt with
        | .ok v =>
          (if v ≠ "" ∧ ¬(hasSub v "Could not compare") then addEntry acc "comparison" v else acc,
           ["compare_plans"], false)
        | .error _ => (acc, ["compare_plans"], true)
      | none => (acc, [], false)
    | [] => (acc, [], false)
  else (acc, [], false)

/-- Check 4: 5G availability, with city resolution (default Mumbai). -/
def mcpStep4 (c : MCPClient) (ql : String) (acc : List Entry) :
    List Entry × List String × Bool :=
  if hasSub ql "5g" || hasSub ql "five g" then
    let city := match cityList.find? (fun ct => hasSub ql ct) with
      | some ct => pyCapitalize ct
      | none => "Mumbai"
    match c.check_5g_availability city with
    | .ok v =>
      (if v ≠ "" then addEntry acc "5g_availability" v else acc,
       ["check_5g_availability"], false)
    | .error _ => (acc, ["check_5g_availability"], true)
  else (acc, [], false)

/-- Check 5: recommendation, driven by detected user type / intent. -/
def mcpStep5 (c : MCPClient) (ql : String) (acc : List Entry) :
    List Entry × List String × Bool :=
  let detected := (userIndicators.find? (fun ut => ut.2.any (fun k => hasSub ql k))).map
    (fun ut => ut.1)
  if detected.isSome || recommendationKeywords.any (fun k => hasSub ql k) then
    let usage := if hasSub ql "heavy" || hasSub ql "lot" || hasSub ql "high" then "high"
      else if hasSub ql "light" || hasSub ql "basic" || hasSub ql "low" then "low"
      else "medium"
    let budget := extractBudget ql
    match c.recommend_plan (detected.getD "general") usage budget with
    | .ok v =>
      (if v ≠ "" ∧ ¬(hasSub v "Could not generate") then addEntry acc "recommendation" v else acc,
       ["recommend_plan"], false)
    | .error _ => (acc, ["recommend_plan"], true)
  else (acc, [], false)

/-- Check 6: feature search (unlimited / OTT / Netflix). -/
def mcpStep6 (c : MCPClient) (q ql : String) (acc : List Entry) :
    List Entry × List String × Bool :=
  if hasSub ql "unlimited" || hasSub ql "ott" || hasSub ql "netflix" then
    match c.search_plans q "all" with
    | .ok v =>
      (if v ≠ "" ∧ ¬(hasSub v "No plans found") then addEntry acc "feature_search" v else acc,
       ["search_plans"], false)
    | .error _ => (acc, ["search_plans"], true)
  else (acc, [], false)

/-- Chain two aggregation steps: once a step aborts (its collaborator call
raised), later steps are skipped — the single Python `except` returns the
entries accumulated so far. -/
def chainStep (prev : List Entry × List String × Bool)
    (f : List Entry → List Entry × List String × Bool) :
    List Entry × List String × Bool :=
  match prev with
  | (acc, tr, true) => (acc, tr, true)
  | (acc, tr, false) =>
    let r := f acc
    (r.1, tr ++ r.2.1, r.2.2)

/-- `JioOrchestrator._get_mcp_data`: entries and the trace of collaborator
calls actually made. -/
def mcpDataRun (c : MCPClient) (q : String) : List Entry × List String × Bool :=
  let ql := pyLower q
  let prices := extractNums q
  chainStep (chainStep (chainStep (chainStep (chainStep
    (mcpStep1 c q ql [])
    (mcpStep2 c prices))
    (mcpStep3 c ql prices))
    (mcpStep4 c ql))
    (mcpStep5 c ql))
    (mcpStep6 c q ql)

/-- Check 1 as claim C5 words it: the check runs, a raised failure only
omits the entry. -/
def specStep1 (c : MCPClient) (q ql : String) (acc : List Entry) : List Entry :=
  if planKeywords.any (fun k => hasSub ql k) then
    match c.search_plans q "all" with
    | .ok v => if v ≠ "" ∧ ¬(hasSub v "No plans found") then addEntry acc "plan_search" v else acc
    | .error _ => acc
  else acc

/-- Check 2 as claim C5 words it: every qualifying number is looked up, a
raised failure only omits that entry. -/
def specStep2 (c : MCPClient) (prices : List String) (acc : List Entry) : List Entry :=
  prices.foldl (fun acc p =>
    if 100 ≤ pyIntOfDigits p ∧ pyIntOfDigits p ≤ 5000 then
      match c.get_plan_details p with
      | .ok v => if v ≠ "" ∧ ¬(hasSub v "Could not find") then
          addEntry acc ("plan_" ++ p) v else acc
      | .error _ => acc
    else acc) acc

/-- Check 3 as claim C5 words it. -/
def specStep3 (c : MCPClient) (ql : String) (prices : List String) (acc : List Entry) :
    List Entry :=
  if mcpComparisonKeywords.any (fun k => hasSub ql k) then
    match prices with
    | p1 :: p2 :: _ =>
      match c.compare_plans p1 p2 with
      | .ok v => if v ≠ "" ∧ ¬(hasSub v "Could not compare") then
          addEntry acc "comparison" v else acc
      | .error _ => acc
    | [p1] =>
      match popularAlternative p1 with
      | some alt =>
        match c.compare_plans p1 alt with
        | .ok v => if v ≠ "" ∧ ¬(hasSub v "Could not compare") then
            addEntry acc "comparison" v else acc
        | .error _ => acc
      | none => acc
    | [] => acc
  else acc

/-- Check 4 as claim C5 words it. -/
def specStep4 (c : MCPClient) (ql : String) (acc : List Entry) : List Entry :=
  if hasSub ql "5g" || hasSub ql "five g" then
    let city := match cityList.find? (fun ct => hasSub ql ct) with
      | some ct => pyCapitalize ct
      | none => "Mumbai"
    match c.check_5g_availability city with
    | .ok v => if v ≠ "" then addEntry acc "5g_availability" v else acc
    | .error _ => acc
  else acc

/-- Check 5 as claim C5 words it. -/
def specStep5 (c : MCPClient) (ql : String) (acc : List Entry) : List Entry :=
  let detected := (userIndicators.find? (fun ut => ut.2.any (fun k => hasSub ql k))).map
    (fun ut => ut.1)
  if detected.isSome || recommendationKeywords.any (fun k => hasSub ql k) then
    let usage := if hasSub ql "heavy" || hasSub ql "lot" || hasSub ql "high" then "high"
      else if hasSub ql "light" || hasSub ql "basic" || hasSub ql "low" then "low"
      else "medium"
    match c.recommend_plan (detected.getD "general") usage (extractBudget ql) with
    | .ok v => if v ≠ "" ∧ ¬(hasSub v "Could not generate") then
        addEntry acc "recommendation" v else acc
    | .error _ => acc
  else acc

/-- Check 6 as claim C5 words it. -/
def specStep6 (c : MCPClient) (q ql : String) (acc : List Entry) : List Entry :=
  if hasSub ql "unlimited" || hasSub ql "ott" || hasSub ql "netflix" then
    match c.search_plans q "all" with
    | .ok v => if v ≠ "" ∧ ¬(hasSub v "No plans found") then addEntry acc "feature_search" v else acc
    | .error _ => acc
  else acc

/-- Aggregation as claim C5 words it (a second definition for the
refinement comparison): all six checks run unconditionally and in the
fixed order on every invocation, and a failure raised by any one
collaborator call causes only that entry to be omitted while the
remaining checks still run. -/
def mcpDataSpec (c : MCPClient) (q : String) : List Entry :=
  let ql := pyLower q
  let prices := extractNums q
  specStep6 c q ql (specStep5 c ql (specStep4 c ql (specStep3 c ql prices
    (specStep2 c prices (specStep1 c q ql [])))))

/-! ## Orchestrator (`orchestrate`, lines 597–772, and
`orchestrate_with_followup`, lines 326–382) -/

/-- Metadata of a structured response.  The Python dicts carry different
key sets per branch, hence every field is optional with default `none`. -/
structure Metadata where
  strategy : Option String := none
  duration : Option Nat := none
  timestamp : Option Nat := none
  agents_used : Option Nat := none
  complexity : Option String := none
  rag_used : Option Bool := none
  mcp_used : Option Bool := none
  mcp_tools_called : Option (List String) := none
  context_size : Option Nat := none
  cached : Option Bool := none
  mtype : Option String := none
  waiting_for : Option String := none
  original_query : Option String := none
  session_id : Option String := none
  deriving DecidableEq

/-- A structured orchestration result. -/
structure Response where
  success : Bool
  response : String
  error : Option String := none
  metadata : Metadata
  deriving DecidableEq

/-- The generation collaborator: one opaque text pipeline per strategy
(the four `_orchestrate_*_with_context` methods up to their prompt
plumbing, which the spec scopes out). -/
structure GenCap where
  sequential : String → String → List Entry → Except String String
  hierarchical : String → String → List Entry → Except String String
  parallel : String → String → List Entry → Except String String
  consensus : String → String → List Entry → Except String String

/-- All collaborators of the orchestrator; `none` models a subsystem that
failed to initialize. -/
structure Caps where
  gen : GenCap
  rag : Option (String → Except String String)
  mcp : Option MCPClient

/-- Mutable state of the orchestrator: the per-session pending follow-up
store and the response cache keyed by `"{query}:{strategy}"`. -/
structure OrchState where
  followup : String → Option PendingCtx
  cache : String → Option (Response × Nat)

/-- `_get_rag_context`: empty string when absent or raising. -/
def ragContextOf (caps : Caps) (q : String) : String :=
  match caps.rag with
  | none => ""
  | some f => match f q with
    | .ok v => v
    | .error _ => ""

/-- The retrieval call trace of `_get_rag_context`. -/
def ragTraceOf (caps : Caps) : List String :=
  match caps.rag with
  | none => []
  | some _ => ["rag_get_context"]

/-- `_get_mcp_data` entries as seen by `orchestrate`. -/
def mcpEntriesOf (caps : Caps) (q : String) : List Entry :=
  match caps.mcp with
  | none => []
  | some c => (mcpDataRun c q).1

/-- `_get_mcp_data` tool-call trace. -/
def mcpTraceOf (caps : Caps) (q : String) : List String :=
  match caps.mcp with
  | none => []
  | some c => (mcpDataRun c q).2.1

/-- Strategy dispatch of step 5: the four named pipelines, anything else
falls to the sequential default.  Returns the pipeline outcome and the
trace event naming the pipeline actually invoked. -/
def dispatchGen (g : GenCap) (strategy q ragC : String) (mcp : List Entry) :
    Except String String × String :=
  if strategy = "sequential" then (g.sequential q ragC mcp, "gen_sequential")
  else if strategy = "hierarchical" then (g.hierarchical q ragC mcp, "gen_hierarchical")
  else if strategy = "parallel" then (g.parallel q ragC mcp, "gen_parallel")
  else if strategy = "consensus" then (g.consensus q ragC mcp, "gen_consensus")
  else (g.sequential q ragC mcp, "gen_sequential")

/-- The effective strategy after the `"auto"` resolution of
`orchestrate`. -/
def effStrategy (query strategy0 complexity : String) : String :=
  if strategy0 = "auto" then selectStrategy query (some complexity) else strategy0

/-- The non-direct tail of `orchestrate`: gather retrieval/tool context,
resolve the strategy, dispatch generation, build the response.  Returns
`(response, cache it?, collaborator-call trace)`. -/
def orchestrateMain (caps : Caps) (now : Nat) (query strategy0 : String)
    (forceTools : Bool) (complexity : String) :
    Response × Bool × List String :=
  let doGather := complexity ≠ "simple" ∨ forceTools = true
  let ragC := if doGather then ragContextOf caps query else ""
  let ragT := if doGather then ragTraceOf caps else []
  let mcpE := if doGather then mcpEntriesOf caps query else []
  let mcpT := if doGather then mcpTraceOf caps query else []
  let strategy := effStrategy query strategy0 complexity
  let gr := dispatchGen caps.gen strategy query ragC mcpE
  match gr.1 with
  | .ok r =>
    ({ success := true, response := r,
       metadata := { strategy := some strategy, duration := some 0, timestamp := some now,
                     agents_used := some 1, complexity := some complexity,
                     rag_used := some (ragC ≠ ""), mcp_used := some (mcpE ≠ []),
                     mcp_tools_called := some (mcpE.map (fun e => e.1)),
                     context_size := some (ragC.length + (mcpE.map (fun e => e.2.length)).sum) } },
     true, ragT ++ mcpT ++ [gr.2])
  | .error e =>
    ({ success := false, response := intelligentFallback, error := some e,
       metadata := { strategy := some strategy, timestamp := some now,
                     complexity := some complexity } },
     false, ragT ++ mcpT ++ [gr.2])

/-- `orchestrate` minus the cache layer: the direct-reply branch for
`simple` complexity, else the main pipeline. -/
def orchestrateCore (caps : Caps) (now : Nat) (query strategy0 : String)
    (forceTools : Bool) : Response × Bool × List String :=
  let complexity := getQueryComplexity query
  if complexity = "simple" ∧ forceTools = false then
    match handleDirectResponse query with
    | some text =>
      ({ success := true, response := text,
         metadata := { strategy := some "direct", duration := some 0, timestamp := some now,
                       agents_used := some 0, complexity := some complexity,
                       rag_used := some false, mcp_used := some false } },
       true, [])
    | none => orchestrateMain caps now query strategy0 forceTools complexity
  else orchestrateMain caps now query strategy0 forceTools complexity

/-- The in-place mutation a cache hit performs on the stored response:
`cached = True` and a refreshed `duration`. -/
def setCachedFlag (r : Response) : Response :=
  { r with metadata := { r.metadata with cached := some true, duration := some 0 } }

/-- The cache read of `orchestrate`: skipped when `skip_cache`, and a
stored entry only hits within the 300-second TTL. -/
def cacheLookup (st : OrchState) (key : String) (now : Nat) (skipCache : Bool) :
    Option (Response × Nat) :=
  if skipCache then none
  else match st.cache key with
    | some (r, t) => if now - t < 300 then some (r, t) else none
    | none => none

/-- `JioOrchestrator.orchestrate`: cache read (unless `skip_cache`, TTL
300 s), else compute and cache successful results.  Returns the response,
the new state, and the trace of collaborator calls made by this
invocation. -/
def orchestrate (caps : Caps) (st : OrchState) (now : Nat) (query strategy : String)
    (forceTools skipCache : Bool) : Response × OrchState × List String :=
  let key := query ++ ":" ++ strategy
  match cacheLookup st key now skipCache with
  | some (r, t) =>
    let r1 := setCachedFlag r
    (r1, { st with cache := upd st.cache key (r1, t) }, [])
  | none =>
    let c := orchestrateCore caps now query strategy forceTools
    let st1 := if c.2.1 ∧ skipCache = false then
        { st with cache := upd st.cache key (c.1, now) }
      else st
    (c.1, st1, c.2.2)

/-- `merge_with_context` at the session level. -/
def mergeWithContext (st : OrchState) (sid ans : String) : String :=
  match st.followup sid with
  | none => ans
  | some ctx => mergeEnhanced ctx.context_type ctx.original_query ans

/-- The `follow_up`-typed result of `orchestrate_with_followup`. -/
def followUpResponse (question ctype query sid : String) (now : Nat) : Response :=
  { success := true, response := question,
    metadata := { mtype := some "follow_up", waiting_for := some ctype,
                  original_query := some query, session_id := some sid,
                  timestamp := some now } }

/-- `JioOrchestrator.orchestrate_with_followup`: resolve a pending
follow-up (merge, clear, process); else detect a new follow-up need
(store, ask); else orchestrate normally. -/
def orchestrateWithFollowup (caps : Caps) (st : OrchState) (now rnd : Nat)
    (query sid strategy : String) : Response × OrchState × List String :=
  match st.followup sid with
  | some _ =>
    let enhanced := mergeWithContext st sid query
    let st1 : OrchState := { st with followup := del st.followup sid }
    orchestrate caps st1 now enhanced strategy false false
  | none =>
    match needsFollowUp rnd query with
    | some qc =>
      let st1 : OrchState :=
        { st with followup := upd st.followup sid ⟨query, qc.2, now⟩ }
      (followUpResponse qc.1 qc.2 query sid now, st1, [])
    | none => orchestrate caps st now query strategy false false

/-! ## Claim-side (spec-worded) definitions for the refinement claims -/

/-- Classification as claim C2 words it: `simple` iff the normalized query
is exactly a greeting with word count ≤ 2 or exactly an acknowledgment;
otherwise `complex` iff it contains a force-tool keyword together with a
comparison/aggregation-intent term; `medium` in every other case. -/
def classifySpec (query : String) : String :=
  let ql := pyStrip (pyLower query)
  if (greetingsList.contains ql ∧ wordCount query ≤ 2) ∨ thanksList.contains ql then
    "simple"
  else if forceToolKeywords.any (fun k => hasSub ql k) ∧
      complexTerms.any (fun k => hasSub ql k) then
    "complex"
  else "medium"

/-- Strategy selection as claim C3 words it: `direct` for `simple`
complexity, then the first matching rule top-to-bottom (urgency →
`parallel`, comparison → `consensus`, bundling → `hierarchical`, default
`sequential`). -/
def selectSpec (query complexity : String) : String :=
  let ql := pyLower query
  if complexity = "simple" then "direct"
  else if urgencyTerms.any (fun k => hasSub ql k) then "parallel"
  else if comparisonStrategyTerms.any (fun k => hasSub ql k) then "consensus"
  else if bundleTerms.any (fun k => hasSub ql k) then "hierarchical"
  else "sequential"

/-- C2: `_get_query_complexity` agrees with the claimed classification on
every query — the greeting/acknowledgment equality test is exactly the
`simple` criterion, `complex` requires a force-tool keyword plus a
comparison/aggregation term, and every other query (including the
question-mark/WH-word branch) is `medium`. -/
theorem complexity_classifier_correct :
    ∀ q : String, getQueryComplexity q = classifySpec q := by
  intro q
  simp only [getQueryComplexity, classifySpec]
  split_ifs <;> first | rfl | tauto

/-- C3: `_select_strategy` agrees with the claimed rule order on every
query and every non-empty (non-Python-falsy) complexity argument. -/
theorem strategy_selector_correct :
    ∀ (q c : String), c ≠ "" → selectStrategy q (some c) = selectSpec q c := by
  intro q c hc
  simp only [selectStrategy, selectSpec, if_neg hc]

/-- Witness for C3 at a concrete input: complexity `simple` yields
`direct` even for an urgent query. -/
theorem strategy_selector_correct_witness :
    selectStrategy "urgent help now" (some "simple") = "direct" := by
  have h := strategy_selector_correct "urgent help now" "simple" (by decide)
  rw [h]
  rfl

/-- C7: the `comparison` merge produces exactly
`"Compare ₹{first} vs ₹{second} plans"` from the first two extracted
3–4-digit numbers when at least two are found, else
`"Compare plans: {answer}"`; the `5g_check` merge produces exactly
`"Check 5G availability in {answer}"` for every answer. -/
theorem merge_comparison_and_5g_formats :
    ∀ orig ans : String,
      (∀ a b rest, extractNums ans = a :: b :: rest →
        mergeEnhanced "comparison" orig ans = "Compare ₹" ++ a ++ " vs ₹" ++ b ++ " plans") ∧
      ((extractNums ans).length < 2 →
        mergeEnhanced "comparison" orig ans = "Compare plans: " ++ ans) ∧
      mergeEnhanced "5g_check" orig ans = "Check 5G availability in " ++ ans := by
  intro orig ans
  refine ⟨?_, ?_, ?_⟩
  · intro a b rest h
    simp only [mergeEnhanced, String.reduceEq, reduceIte, if_true, if_false, h]
  · intro h
    simp only [mergeEnhanced, String.reduceEq, reduceIte, if_true, if_false]
    match hE : extractNums ans with
    | [] => rfl
    | [a] => rfl
    | a :: b :: rest =>
      rw [hE] at h
      simp only [List.length_cons] at h
      omega
  · simp only [mergeEnhanced, String.reduceEq, reduceIte, if_true, if_false]

/-- Witness for C7 at concrete inputs: the answer `"299 and 399"` merges
to the two-price comparison, `"99 bucks"` (no 3–4-digit number pair)
falls back, and `"mumbai"` becomes a 5G location query. -/
theorem merge_comparison_and_5g_formats_witness :
    mergeEnhanced "comparison" "compare" "299 and 399" = "Compare ₹299 vs ₹399 plans" ∧
    mergeEnhanced "comparison" "compare" "99 bucks" = "Compare plans: 99 bucks" ∧
    mergeEnhanced "5g_check" "5g" "mumbai" = "Check 5G availability in mumbai" := by
  refine ⟨?_, ?_, ?_⟩
  · exact (merge_comparison_and_5g_formats "compare" "299 and 399").1 "299" "399" [] (by decide)
  · exact (merge_comparison_and_5g_formats "compare" "99 bucks").2.1 (by decide)
  · exact (merge_comparison_and_5g_formats "5g" "mumbai").2.2

/-- C8: `merge_with_context` is total — every context type and answer
yields a merged query string (the embedding is a total function with a
generic-concatenation default branch) — and for `plan_recommendation` an
answer with no 3–4-digit number, no usage keyword and no user-type
keyword produces the fully-defaulted
`"Recommend best general plan under ₹500 with 2GB daily data"`. -/
theorem merge_total_with_defaults :
    ∀ ctype orig ans : String,
      (∃ s, mergeEnhanced ctype orig ans = s) ∧
      (extractNums ans = [] →
       (∀ pv ∈ usagePatternsList, hasSub (pyLower ans) pv.1 = false) →
       hasSub (pyLower ans) "student" = false →
       hasSub (pyLower ans) "professional" = false →
       hasSub (pyLower ans) "work" = false →
       hasSub (pyLower ans) "family" = false →
       mergeEnhanced "plan_recommendation" orig ans =
         "Recommend best general plan under ₹500 with 2GB daily data") := by
  intro ctype orig ans
  constructor
  · exact ⟨_, rfl⟩
  · intro hnum husage hs hp hw hf
    have hu : usageOf ans = "2GB" := by
      unfold usageOf
      rw [List.find?_eq_none.mpr]
      intro pv hpv
      simp only [husage pv hpv, Bool.false_eq_true, not_false_eq_true]
    have ht : userTypeOf ans = "general" := by
      unfold userTypeOf
      simp only [hs, hp, hw, hf, Bool.false_eq_true, if_false, Bool.or_self]
    have hb : firstNum ans = none := by
      unfold firstNum
      rw [hnum]
      rfl
    simp only [mergeEnhanced, reduceIte, hu, ht, hb]
    rfl

/-- Witness for C8 at a concrete input: the answer `"no idea"` has no
budget number, no usage keyword and no user-type keyword, so every
default fires. -/
theorem merge_total_with_defaults_witness :
    mergeEnhanced "plan_recommendation" "plan" "no idea" =
      "Recommend best general plan under ₹500 with 2GB daily data" := by
  refine (merge_total_with_defaults "plan_recommendation" "plan" "no idea").2
    (by decide) ?_ (by decide) (by decide) (by decide) (by decide)
  intro pv hpv
  fin_cases hpv <;> decide

/-- A query whose normalized form starts with a budget keyword is not one
of the exact `vague_plan` strings. -/
theorem budget_not_vague_plan (s : String) (h : matchesUnclearBudget s = true) :
    matchesVaguePlan s = false := by
  cases hv : matchesVaguePlan s with
  | false => rfl
  | true =>
    have hm : s ∈ vaguePlanPatterns := by simpa [matchesVaguePlan] using hv
    fin_cases hm <;> exact absurd h (by decide)

/-- A query whose normalized form starts with a budget keyword is not one
of the exact `incomplete_comparison` strings. -/
theorem budget_not_comparison (s : String) (h : matchesUnclearBudget s = true) :
    matchesIncompleteComparison s = false := by
  cases hv : matchesIncompleteComparison s with
  | false => rfl
  | true =>
    have hm : s ∈ incompleteComparisonPatterns := by
      simpa [matchesIncompleteComparison] using hv
    fin_cases hm <;> exact absurd h (by decide)

/-- A query whose normalized form starts with a budget keyword is not one
of the exact `missing_location` strings. -/
theorem budget_not_location (s : String) (h : matchesUnclearBudget s = true) :
    matchesMissingLocation s = false := by
  cases hv : matchesMissingLocation s with
  | false => rfl
  | true =>
    have hm : s ∈ missingLocationPatterns := by simpa [matchesMissingLocation] using hv
    fin_cases hm <;> exact absurd h (by decide)

/-- C9 (amended): `re.match` anchors the `unclear_budget` patterns at the
start, so it is queries whose normalized form starts with one of the six
budget keywords (no earlier category can match such a query) that trigger
a follow-up with `context_type = "budget_plan"` and a question from the
`unclear_budget` pool. -/
theorem budget_prefix_triggers_followup :
    ∀ (q : String) (rnd : Nat),
      matchesUnclearBudget (pyStrip (pyLower q)) = true →
      needsFollowUp rnd q = some (choosePool budgetFollowUps rnd, "budget_plan") ∧
      choosePool budgetFollowUps rnd ∈ budgetFollowUps := by
  intro q rnd h
  constructor
  · simp only [needsFollowUp, budget_not_vague_plan _ h, budget_not_comparison _ h,
      budget_not_location _ h, h, Bool.false_eq_true, if_false, if_true]
  · have h2 : rnd % budgetFollowUps.length = rnd % 2 := by
      simp [budgetFollowUps]
    simp only [choosePool, h2]
    rcases Nat.mod_two_eq_zero_or_one rnd with h0 | h1
    · rw [h0]; simp [budgetFollowUps]
    · rw [h1]; simp [budgetFollowUps]

/-- Witness for C9 at a concrete input: `"cheapest plan"` starts with
`cheap` and triggers the budget follow-up. -/
theorem budget_prefix_triggers_followup_witness :
    needsFollowUp 0 "cheapest plan" = some (choosePool budgetFollowUps 0, "budget_plan") ∧
    choosePool budgetFollowUps 0 ∈ budgetFollowUps :=
  budget_prefix_triggers_followup "cheapest plan" 0 (by decide)

/-- Counterexample to C9 as stated: `"very cheap"` contains the substring
`cheap` but `re.match` only anchors at the start, so no follow-up is
triggered at all (and no earlier ambiguous category matches either). -/
theorem budget_substring_claim_cex :
    hasSub "very cheap" "cheap" = true ∧ needsFollowUp 0 "very cheap" = none := by
  constructor
  · decide
  · decide

/-- A client on which no tool call raises. -/
structure ClientTotal (c : MCPClient) : Prop where
  search : ∀ a b, ∃ v, c.search_plans a b = .ok v
  details : ∀ p, ∃ v, c.get_plan_details p = .ok v
  cmp : ∀ a b, ∃ v, c.compare_plans a b = .ok v
  fiveg : ∀ l, ∃ v, c.check_5g_availability l = .ok v
  recommend : ∀ a b f, ∃ v, c.recommend_plan a b f = .ok v

/-- Chaining a non-aborted step with a step that never aborts and whose
entries agree with its per-call-catch counterpart. -/
theorem chainStep_total {prev : List Entry × List String × Bool} {a : List Entry}
    {f : List Entry → List Entry × List String × Bool} {g : List Entry → List Entry}
    (h1 : prev.2.2 = false) (h1e : prev.1 = a)
    (h2 : ∀ acc, (f acc).2.2 = false ∧ (f acc).1 = g acc) :
    (chainStep prev f).2.2 = false ∧ (chainStep prev f).1 = g a := by
  obtain ⟨x, t, b⟩ := prev
  simp only at h1 h1e
  subst h1
  simp only [chainStep]
  rw [h1e]
  exact ⟨(h2 a).1, (h2 a).2⟩

/-- Check 1 never aborts and agrees with its per-call-catch version when
`search_plans` cannot raise. -/
theorem mcpStep1_total (c : MCPClient) (q ql : String)
    (h : ∀ a b, ∃ v, c.search_plans a b = .ok v) :
    ∀ acc, (mcpStep1 c q ql acc).2.2 = false ∧ (mcpStep1 c q ql acc).1 = specStep1 c q ql acc := by
  intro acc
  obtain ⟨v, hv⟩ := h q "all"
  unfold mcpStep1 specStep1
  rw [hv]
  split <;> exact ⟨rfl, rfl⟩

/-- Check 2 never aborts and agrees with its per-call-catch version when
`get_plan_details` cannot raise. -/
theorem mcpStep2_total (c : MCPClient) (prices : List String)
    (h : ∀ p, ∃ v, c.get_plan_details p = .ok v) :
    ∀ acc, (mcpStep2 c prices acc).2.2 = false ∧
      (mcpStep2 c prices acc).1 = specStep2 c prices acc := by
  induction prices with
  | nil => intro acc; exact ⟨rfl, rfl⟩
  | cons p ps ih =>
    intro acc
    obtain ⟨v, hv⟩ := h p
    unfold mcpStep2 specStep2
    rw [hv]
    by_cases hr : 100 ≤ pyIntOfDigits p ∧ pyIntOfDigits p ≤ 5000
    · simp only [if_pos hr, List.foldl_cons, if_pos hr, hv]
      exact ⟨(ih _).1, (ih _).2⟩
    · simp only [if_neg hr, List.foldl_cons, if_neg hr]
      exact ⟨(ih _).1, (ih _).2⟩

/-- Check 3 never aborts and agrees with its per-call-catch version when
`compare_plans` cannot raise. -/
theorem mcpStep3_total (c : MCPClient) (ql : String) (prices : List String)
    (h : ∀ a b, ∃ v, c.compare_plans a b = .ok v) :
    ∀ acc, (mcpStep3 c ql prices acc).2.2 = false ∧
      (mcpStep3 c ql prices acc).1 = specStep3 c ql prices acc := by
  intro acc
  unfold mcpStep3 specStep3
  match prices with
  | [] => split <;> exact ⟨rfl, rfl⟩
  | [p1] =>
    cases hpa : popularAlternative p1 with
    | some alt =>
      obtain ⟨v, hv⟩ := h p1 alt
      simp only [hpa, hv]
      split <;> exact ⟨rfl, rfl⟩
    | none =>
      simp only [hpa]
      split <;> exact ⟨rfl, rfl⟩
  | p1 :: p2 :: rest =>
    obtain ⟨v, hv⟩ := h p1 p2
    simp only [hv]
    split <;> exact ⟨rfl, rfl⟩

/-- Check 4 never aborts and agrees with its per-call-catch version when
`check_5g_availability` cannot raise. -/
theorem mcpStep4_total (c : MCPClient) (ql : String)
    (h : ∀ l, ∃ v, c.check_5g_availability l = .ok v) :
    ∀ acc, (mcpStep4 c ql acc).2.2 = false ∧ (mcpStep4 c ql acc).1 = specStep4 c ql acc := by
  intro acc
  unfold mcpStep4 specStep4
  dsimp only
  obtain ⟨v, hv⟩ := h (match cityList.find? (fun ct => hasSub ql ct) with
    | some ct => pyCapitalize ct
    | none => "Mumbai")
  rw [hv]
  split <;> exact ⟨rfl, rfl⟩

/-- Check 5 never aborts and agrees with its per-call-catch version when
`recommend_plan` cannot raise. -/
theorem mcpStep5_total (c : MCPClient) (ql : String)
    (h : ∀ a b f, ∃ v, c.recommend_plan a b f = .ok v) :
    ∀ acc, (mcpStep5 c ql acc).2.2 = false ∧ (mcpStep5 c ql acc).1 = specStep5 c ql acc := by
  intro acc
  unfold mcpStep5 specStep5
  dsimp only
  obtain ⟨v, hv⟩ := h
    (((userIndicators.find? (fun ut => ut.2.any (fun k => hasSub ql k))).map
      (fun ut => ut.1)).getD "general")
    (if hasSub ql "heavy" || hasSub ql "lot" || hasSub ql "high" then "high"
      else if hasSub ql "light" || hasSub ql "basic" || hasSub ql "low" then "low"
      else "medium")
    (extractBudget ql)
  rw [hv]
  split <;> exact ⟨rfl, rfl⟩

/-- Check 6 never aborts and agrees with its per-call-catch version when
`search_plans` cannot raise. -/
theorem mcpStep6_total (c : MCPClient) (q ql : String)
    (h : ∀ a b, ∃ v, c.search_plans a b = .ok v) :
    ∀ acc, (mcpStep6 c q ql acc).2.2 = false ∧ (mcpStep6 c q ql acc).1 = specStep6 c q ql acc := by
  intro acc
  obtain ⟨v, hv⟩ := h q "all"
  unfold mcpStep6 specStep6
  rw [hv]
  split <;> exact ⟨rfl, rfl⟩

/-- C5 (amended): when no collaborator call raises, all six checks of
`_get_mcp_data` run in the fixed order and the bundle is exactly the one
the claim describes (per-check contributions, in order).  The single
`try/except` around the whole body is observable only when a call raises
— see the counterexample. -/
theorem mcp_aggregator_all_checks (c : MCPClient) (q : String) (h : ClientTotal c) :
    (mcpDataRun c q).1 = mcpDataSpec c q := by
  obtain ⟨hs, hd, hcp, h5, hr⟩ := h
  have t1 := mcpStep1_total c q (pyLower q) hs
  have k1 := chainStep_total (t1 []).1 (t1 []).2 (mcpStep2_total c (extractNums q) hd)
  have k2 := chainStep_total k1.1 k1.2 (mcpStep3_total c (pyLower q) (extractNums q) hcp)
  have k3 := chainStep_total k2.1 k2.2 (mcpStep4_total c (pyLower q) h5)
  have k4 := chainStep_total k3.1 k3.2 (mcpStep5_total c (pyLower q) hr)
  have k5 := chainStep_total k4.1 k4.2 (mcpStep6_total c q (pyLower q) hs)
  exact k5.2

/-- Witness for C5 at a concrete total client and query: evaluating the
embedded aggregator and the claim-worded aggregator on
`"compare 299 vs 399 plan"` yields the same bundle. -/
theorem mcp_aggregator_all_checks_witness :
    (mcpDataRun
      { search_plans := fun q _ => .ok ("found " ++ q)
        get_plan_details := fun p => .ok ("details " ++ p)
        compare_plans := fun a b => .ok ("cmp " ++ a ++ " " ++ b)
        check_5g_availability := fun l => .ok ("5g in " ++ l)
        recommend_plan := fun u us _ => .ok ("rec " ++ u ++ " " ++ us) }
      "compare 299 vs 399 plan").1 =
    mcpDataSpec
      { search_plans := fun q _ => .ok ("found " ++ q)
        get_plan_details := fun p => .ok ("details " ++ p)
        compare_plans := fun a b => .ok ("cmp " ++ a ++ " " ++ b)
        check_5g_availability := fun l => .ok ("5g in " ++ l)
        recommend_plan := fun u us _ => .ok ("rec " ++ u ++ " " ++ us) }
      "compare 299 vs 399 plan" :=
  mcp_aggregator_all_checks _ _
    ⟨fun a _ => ⟨"found " ++ a, rfl⟩, fun p => ⟨"details " ++ p, rfl⟩,
     fun a b => ⟨"cmp " ++ a ++ " " ++ b, rfl⟩, fun l => ⟨"5g in " ++ l, rfl⟩,
     fun u us _ => ⟨"rec " ++ u ++ " " ++ us, rfl⟩⟩

/-- Counterexample to C5 as stated: with a client whose `search_plans`
raises but whose `get_plan_details` succeeds, the query `"plan 299"`
produces an empty bundle — check 1's failure aborts the whole `try`
block, so check 2 never runs and `plan_299` is missing, although the
per-call-catch reading of the claim would produce it. -/
theorem mcp_aggregator_cex :
    (mcpDataRun
      { search_plans := fun _ _ => .error "connection lost"
        get_plan_details := fun p => .ok ("details " ++ p)
        compare_plans := fun a b => .ok ("cmp " ++ a ++ " " ++ b)
        check_5g_availability := fun l => .ok ("5g in " ++ l)
        recommend_plan := fun u us _ => .ok ("rec " ++ u ++ " " ++ us) }
      "plan 299").1 = [] ∧
    mcpDataSpec
      { search_plans := fun _ _ => .error "connection lost"
        get_plan_details := fun p => .ok ("details " ++ p)
        compare_plans := fun a b => .ok ("cmp " ++ a ++ " " ++ b)
        check_5g_availability := fun l => .ok ("5g in " ++ l)
        recommend_plan := fun u us _ => .ok ("rec " ++ u ++ " " ++ us) }
      "plan 299" = [("plan_299", "details 299")] := by
  constructor
  · rfl
  · rfl

/-- `orchestrate` never touches the follow-up store (only
`orchestrate_with_followup` does). -/
theorem orchestrate_preserves_followup (caps : Caps) (st : OrchState) (now : Nat)
    (q s : String) (ft sc : Bool) :
    (orchestrate caps st now q s ft sc).2.1.followup = st.followup := by
  unfold orchestrate
  dsimp only
  split
  · rfl
  · split
    · rfl
    · rfl

/-- A result of `orchestrateCore` is marked cacheable exactly when it is
successful (only the generation-failure branch is not cached). -/
theorem orchestrateCore_cacheable_eq_success (caps : Caps) (now : Nat) (q s : String)
    (ft : Bool) :
    (orchestrateCore caps now q s ft).2.1 = (orchestrateCore caps now q s ft).1.success := by
  unfold orchestrateCore orchestrateMain
  dsimp only
  split
  · split
    · rfl
    · split
      · rfl
      · rfl
  · split
    · rfl
    · rfl

/-- A fresh (cache-missing, non-skipping) `orchestrate` call computes the
core and, when the core result is cacheable, stores it under
`"{query}:{strategy}"` at the current time. -/
theorem orchestrate_fresh (caps : Caps) (st : OrchState) (now : Nat) (q s : String) (ft : Bool)
    (hmiss : st.cache (q ++ ":" ++ s) = none) :
    orchestrate caps st now q s ft false =
      ((orchestrateCore caps now q s ft).1,
       if (orchestrateCore caps now q s ft).2.1 then
         { st with cache := upd st.cache (q ++ ":" ++ s) ((orchestrateCore caps now q s ft).1, now) }
       else st,
       (orchestrateCore caps now q s ft).2.2) := by
  have hlk : cacheLookup st (q ++ ":" ++ s) now false = none := by
    unfold cacheLookup
    rw [if_neg (by simp), hmiss]
  unfold orchestrate
  dsimp only
  rw [hlk]
  dsimp only
  split
  · rename_i hc
    rw [if_pos hc.1]
  · rename_i hc
    rw [if_neg]
    simp only [Bool.not_eq_true]
    by_contra hb
    rw [Bool.not_eq_false] at hb
    exact hc ⟨hb, rfl⟩

/-- C1: the per-session store holds at most one pending record (it maps a
session to an `Option PendingCtx`), and whenever one exists, the very
next `orchestrate_with_followup` call for that session — whatever the
message — merges the message with the stored original query under the
stored `context_type`, clears the record, and processes the merged query
through `orchestrate`; the session ends the call with no pending
record. -/
theorem pending_followup_always_consumed (caps : Caps) (st : OrchState) (now rnd : Nat)
    (q sid strat : String) (ctx : PendingCtx) (h : st.followup sid = some ctx) :
    orchestrateWithFollowup caps st now rnd q sid strat =
      orchestrate caps { st with followup := del st.followup sid } now
        (mergeEnhanced ctx.context_type ctx.original_query q) strat false false ∧
    (orchestrateWithFollowup caps st now rnd q sid strat).2.1.followup sid = none := by
  have h1 : orchestrateWithFollowup caps st now rnd q sid strat =
      orchestrate caps { st with followup := del st.followup sid } now
        (mergeEnhanced ctx.context_type ctx.original_query q) strat false false := by
    unfold orchestrateWithFollowup mergeWithContext
    rw [h]
  refine ⟨h1, ?_⟩
  rw [h1, orchestrate_preserves_followup]
  simp [del]

/-- Witness for C1 at a concrete pending state: session `"s1"` holds a
`comparison` context for original query `"compare"`; the next message
`"299 and 399"` is consumed, merged and processed, and the session is
cleared. -/
theorem pending_followup_always_consumed_witness :
    (orchestrateWithFollowup
        { gen := { sequential := fun _ _ _ => .ok "SEQ", hierarchical := fun _ _ _ => .ok "HIER",
                   parallel := fun _ _ _ => .ok "PAR", consensus := fun _ _ _ => .ok "CONS" },
          rag := none, mcp := none }
        { followup := upd (fun _ => none) "s1" ⟨"compare", "comparison", 0⟩,
          cache := fun _ => none }
        5 0 "299 and 399" "s1" "auto" =
      orchestrate
        { gen := { sequential := fun _ _ _ => .ok "SEQ", hierarchical := fun _ _ _ => .ok "HIER",
                   parallel := fun _ _ _ => .ok "PAR", consensus := fun _ _ _ => .ok "CONS" },
          rag := none, mcp := none }
        { followup := del (upd (fun _ => none) "s1" ⟨"compare", "comparison", 0⟩) "s1",
          cache := fun _ => none }
        5 (mergeEnhanced "comparison" "compare" "299 and 399") "auto" false false) ∧
    (orchestrateWithFollowup
        { gen := { sequential := fun _ _ _ => .ok "SEQ", hierarchical := fun _ _ _ => .ok "HIER",
                   parallel := fun _ _ _ => .ok "PAR", consensus := fun _ _ _ => .ok "CONS" },
          rag := none, mcp := none }
        { followup := upd (fun _ => none) "s1" ⟨"compare", "comparison", 0⟩,
          cache := fun _ => none }
        5 0 "299 and 399" "s1" "auto").2.1.followup "s1" = none :=
  pending_followup_always_consumed _ _ 5 0 "299 and 399" "s1" "auto"
    ⟨"compare", "comparison", 0⟩ (by simp [upd])

/-- C6: if the generation dispatch of `orchestrate` raises (the dispatched
pipeline returns an exception `e`), the call still returns a response —
never propagating the exception — with `success = false`, the fixed
fallback text listing popular plans, and the exception message in the
diagnostic `error` field. -/
theorem generation_failure_gives_fallback (caps : Caps) (st : OrchState) (now : Nat)
    (q strat : String) (ft : Bool) (e : String)
    (hmiss : st.cache (q ++ ":" ++ strat) = none)
    (hc : getQueryComplexity q ≠ "simple")
    (herr : (dispatchGen caps.gen (effStrategy q strat (getQueryComplexity q)) q
        (ragContextOf caps q) (mcpEntriesOf caps q)).1 = .error e) :
    (orchestrate caps st now q strat ft false).1.success = false ∧
    (orchestrate caps st now q strat ft false).1.response = intelligentFallback ∧
    (orchestrate caps st now q strat ft false).1.error = some e := by
  rw [orchestrate_fresh caps st now q strat ft hmiss]
  have hcore : orchestrateCore caps now q strat ft =
      orchestrateMain caps now q strat ft (getQueryComplexity q) := by
    unfold orchestrateCore
    rw [if_neg (fun hand => hc hand.1)]
  rw [hcore]
  unfold orchestrateMain
  dsimp only
  rw [if_pos (Or.inl hc), if_pos (Or.inl hc), herr]
  exact ⟨rfl, rfl, rfl⟩

/-- Witness for C6 at a concrete input: a generation collaborator that
always raises `"llm down"` on the query `"jio"` yields the fallback
response with the diagnostic attached. -/
theorem generation_failure_gives_fallback_witness :
    (orchestrate
        { gen := { sequential := fun _ _ _ => .error "llm down",
                   hierarchical := fun _ _ _ => .error "llm down",
                   parallel := fun _ _ _ => .error "llm down",
                   consensus := fun _ _ _ => .error "llm down" },
          rag := none, mcp := none }
        { followup := fun _ => none, cache := fun _ => none }
        0 "jio" "sequential" false false).1.success = false ∧
    (orchestrate
        { gen := { sequential := fun _ _ _ => .error "llm down",
                   hierarchical := fun _ _ _ => .error "llm down",
                   parallel := fun _ _ _ => .error "llm down",
                   consensus := fun _ _ _ => .error "llm down" },
          rag := none, mcp := none }
        { followup := fun _ => none, cache := fun _ => none }
        0 "jio" "sequential" false false).1.response = intelligentFallback ∧
    (orchestrate
        { gen := { sequential := fun _ _ _ => .error "llm down",
                   hierarchical := fun _ _ _ => .error "llm down",
                   parallel := fun _ _ _ => .error "llm down",
                   consensus := fun _ _ _ => .error "llm down" },
          rag := none, mcp := none }
        { followup := fun _ => none, cache := fun _ => none }
        0 "jio" "sequential" false false).1.error = some "llm down" :=
  generation_failure_gives_fallback _ _ 0 "jio" "sequential" false "llm down"
    rfl (by decide) rfl

/-- C10 (amended): for a non-simple query and a strategy hint outside
`{auto, sequential, hierarchical, parallel, consensus}` — `"auto"` must be
excluded, since it is replaced by the auto-selected strategy — the
orchestrator dispatches the sequential generation pipeline (the trace
event is `gen_sequential`) instead of raising, and the result metadata
reports the hint string itself as the strategy. -/
theorem unknown_strategy_falls_to_sequential (caps : Caps) (st : OrchState) (now : Nat)
    (q strat : String) (ft : Bool)
    (hmiss : st.cache (q ++ ":" ++ strat) = none)
    (hc : getQueryComplexity q ≠ "simple")
    (hs : strat ∉ (["auto", "sequential", "hierarchical", "parallel", "consensus"] : List String)) :
    (orchestrate caps st now q strat ft false).2.2 =
      ragTraceOf caps ++ mcpTraceOf caps q ++ ["gen_sequential"] ∧
    (orchestrate caps st now q strat ft false).1.metadata.strategy = some strat := by
  simp only [List.mem_cons, List.mem_singleton, not_or] at hs
  obtain ⟨ha, hseq, hhier, hpar, hcons⟩ := hs
  have heff : effStrategy q strat (getQueryComplexity q) = strat := by
    unfold effStrategy
    rw [if_neg ha]
  have hdis : dispatchGen caps.gen strat q (ragContextOf caps q) (mcpEntriesOf caps q) =
      (caps.gen.sequential q (ragContextOf caps q) (mcpEntriesOf caps q), "gen_sequential") := by
    unfold dispatchGen
    rw [if_neg hseq, if_neg hhier, if_neg hpar, if_neg hcons.1]
  rw [orchestrate_fresh caps st now q strat ft hmiss]
  have hcore : orchestrateCore caps now q strat ft =
      orchestrateMain caps now q strat ft (getQueryComplexity q) := by
    unfold orchestrateCore
    rw [if_neg (fun hand => hc hand.1)]
  rw [hcore]
  unfold orchestrateMain
  dsimp only
  rw [if_pos (Or.inl hc), if_pos (Or.inl hc), if_pos (Or.inl hc), if_pos (Or.inl hc),
    heff, hdis]
  dsimp only
  cases caps.gen.sequential q (ragContextOf caps q) (mcpEntriesOf caps q) with
  | ok r => exact ⟨rfl, rfl⟩
  | error e => exact ⟨rfl, rfl⟩

/-- Witness for C10 at a concrete input: the unrecognized hint `"direct"`
on the non-simple query `"my plans today"` dispatches the sequential
pipeline and is reported verbatim in the metadata. -/
theorem unknown_strategy_falls_to_sequential_witness :
    (orchestrate
        { gen := { sequential := fun _ _ _ => .ok "SEQ", hierarchical := fun _ _ _ => .ok "HIER",
                   parallel := fun _ _ _ => .ok "PAR", consensus := fun _ _ _ => .ok "CONS" },
          rag := none, mcp := none }
        { followup := fun _ => none, cache := fun _ => none }
        0 "my plans today" "direct" false false).2.2 =
      ragTraceOf
        { gen := { sequential := fun _ _ _ => .ok "SEQ", hierarchical := fun _ _ _ => .ok "HIER",
                   parallel := fun _ _ _ => .ok "PAR", consensus := fun _ _ _ => .ok "CONS" },
          rag := none, mcp := none } ++
      mcpTraceOf
        { gen := { sequential := fun _ _ _ => .ok "SEQ", hierarchical := fun _ _ _ => .ok "HIER",
                   parallel := fun _ _ _ => .ok "PAR", consensus := fun _ _ _ => .ok "CONS" },
          rag := none, mcp := none } "my plans today" ++
      ["gen_sequential"] ∧
    (orchestrate
        { gen := { sequential := fun _ _ _ => .ok "SEQ", hierarchical := fun _ _ _ => .ok "HIER",
                   parallel := fun _ _ _ => .ok "PAR", consensus := fun _ _ _ => .ok "CONS" },
          rag := none, mcp := none }
        { followup := fun _ => none, cache := fun _ => none }
        0 "my plans today" "direct" false false).1.metadata.strategy = some "direct" :=
  unknown_strategy_falls_to_sequential _ _ 0 "my plans today" "direct" false
    rfl (by decide) (by decide)

/-- Counterexample to C10 as stated: the hint `"auto"` is also outside
`{sequential, hierarchical, parallel, consensus}`, yet on the comparison
query it is replaced by the auto-selected `"consensus"` — the consensus
pipeline is dispatched (not the sequential one) and the metadata reports
`"consensus"`, not the hint. -/
theorem unknown_strategy_claim_cex :
    (orchestrate
        { gen := { sequential := fun _ _ _ => .ok "SEQ", hierarchical := fun _ _ _ => .ok "HIER",
                   parallel := fun _ _ _ => .ok "PAR", consensus := fun _ _ _ => .ok "CONS" },
          rag := none, mcp := none }
        { followup := fun _ => none, cache := fun _ => none }
        0 "compare 299 vs 399 plans" "auto" false false).2.2 = ["gen_consensus"] ∧
    (orchestrate
        { gen := { sequential := fun _ _ _ => .ok "SEQ", hierarchical := fun _ _ _ => .ok "HIER",
                   parallel := fun _ _ _ => .ok "PAR", consensus := fun _ _ _ => .ok "CONS" },
          rag := none, mcp := none }
        { followup := fun _ => none, cache := fun _ => none }
        0 "compare 299 vs 399 plans" "auto" false false).1.metadata.strategy = some "consensus" := by
  constructor
  · rfl
  · rfl

/-- C4 (amended): two `handle` calls with identical query and strategy,
`skip_cache = false`, a session with no pending follow-up, a query that
does not itself trigger follow-up detection, within the 300-second TTL,
and a *successful* first call (a failed orchestration is not cached):
the second call returns the first response unchanged except for the
refreshed `duration` and the `cached = true` flag, and makes no
retrieval, tool or generation calls (its collaborator trace is empty). -/
theorem cache_hit_second_call (caps : Caps) (st : OrchState) (t1 t2 rnd : Nat)
    (q sid strat : String)
    (hfu : st.followup sid = none)
    (hdet : needsFollowUp rnd q = none)
    (hmiss : st.cache (q ++ ":" ++ strat) = none)
    (httl : t2 - t1 < 300)
    (hsucc : (orchestrateWithFollowup caps st t1 rnd q sid strat).1.success = true) :
    (orchestrateWithFollowup caps ((orchestrateWithFollowup caps st t1 rnd q sid strat).2.1)
        t2 rnd q sid strat).1 =
      setCachedFlag ((orchestrateWithFollowup caps st t1 rnd q sid strat).1) ∧
    (orchestrateWithFollowup caps ((orchestrateWithFollowup caps st t1 rnd q sid strat).2.1)
        t2 rnd q sid strat).2.2 = [] := by
  have hw1 : orchestrateWithFollowup caps st t1 rnd q sid strat =
      orchestrate caps st t1 q strat false false := by
    unfold orchestrateWithFollowup
    rw [hfu, hdet]
  have hfr := orchestrate_fresh caps st t1 q strat false hmiss
  have hsucc1 : (orchestrateCore caps t1 q strat false).1.success = true := by
    rw [hw1, hfr] at hsucc
    exact hsucc
  have hcache : (orchestrateCore caps t1 q strat false).2.1 = true := by
    rw [orchestrateCore_cacheable_eq_success]
    exact hsucc1
  have hst1 : (orchestrateWithFollowup caps st t1 rnd q sid strat).2.1 =
      { st with cache := (upd st.cache (q ++ ":" ++ strat)
          ((orchestrateCore caps t1 q strat false).1, t1)) } := by
    rw [hw1, hfr]
    dsimp only
    rw [if_pos hcache]
  have hw2 : orchestrateWithFollowup caps
      { st with cache := (upd st.cache (q ++ ":" ++ strat)
          ((orchestrateCore caps t1 q strat false).1, t1)) } t2 rnd q sid strat =
      orchestrate caps
        { st with cache := (upd st.cache (q ++ ":" ++ strat)
            ((orchestrateCore caps t1 q strat false).1, t1)) } t2 q strat false false := by
    unfold orchestrateWithFollowup
    dsimp only
    rw [hfu, hdet]
  have hlk2 : cacheLookup
      { st with cache := (upd st.cache (q ++ ":" ++ strat)
          ((orchestrateCore caps t1 q strat false).1, t1)) }
      (q ++ ":" ++ strat) t2 false =
      some ((orchestrateCore caps t1 q strat false).1, t1) := by
    unfold cacheLookup
    rw [if_neg (by simp)]
    dsimp only
    rw [show upd st.cache (q ++ ":" ++ strat) ((orchestrateCore caps t1 q strat false).1, t1)
        (q ++ ":" ++ strat) = some ((orchestrateCore caps t1 q strat false).1, t1) from by
      simp [upd]]
    dsimp only
    rw [if_pos httl]
  have h2 : orchestrate caps
      { st with cache := (upd st.cache (q ++ ":" ++ strat)
          ((orchestrateCore caps t1 q strat false).1, t1)) } t2 q strat false false =
      (setCachedFlag ((orchestrateCore caps t1 q strat false).1),
       { st with cache := (upd (upd st.cache (q ++ ":" ++ strat)
           ((orchestrateCore caps t1 q strat false).1, t1)) (q ++ ":" ++ strat)
           (setCachedFlag ((orchestrateCore caps t1 q strat false).1), t1)) },
       []) := by
    unfold orchestrate
    dsimp only
    rw [hlk2]
  constructor
  · rw [hst1, hw2, h2, hw1, hfr]
  · rw [hst1, hw2, h2]

/-- Witness for C4 at a concrete input: a fresh state, the query
`"tell me about jio fiber speed"` with strategy `"sequential"`, a
succeeding generator, and a second call 10 seconds later. -/
theorem cache_hit_second_call_witness :
    (orchestrateWithFollowup
        { gen := { sequential := fun _ _ _ => .ok "SEQ", hierarchical := fun _ _ _ => .ok "HIER",
                   parallel := fun _ _ _ => .ok "PAR", consensus := fun _ _ _ => .ok "CONS" },
          rag := none, mcp := none }
        ((orchestrateWithFollowup
          { gen := { sequential := fun _ _ _ => .ok "SEQ", hierarchical := fun _ _ _ => .ok "HIER",
                     parallel := fun _ _ _ => .ok "PAR", consensus := fun _ _ _ => .ok "CONS" },
            rag := none, mcp := none }
          { followup := fun _ => none, cache := fun _ => none }
          0 7 "tell me about jio fiber speed" "s1" "sequential").2.1)
        10 7 "tell me about jio fiber speed" "s1" "sequential").1 =
      setCachedFlag ((orchestrateWithFollowup
        { gen := { sequential := fun _ _ _ => .ok "SEQ", hierarchical := fun _ _ _ => .ok "HIER",
                   parallel := fun _ _ _ => .ok "PAR", consensus := fun _ _ _ => .ok "CONS" },
          rag := none, mcp := none }
        { followup := fun _ => none, cache := fun _ => none }
        0 7 "tell me about jio fiber speed" "s1" "sequential").1) ∧
    (orchestrateWithFollowup
        { gen := { sequential := fun _ _ _ => .ok "SEQ", hierarchical := fun _ _ _ => .ok "HIER",
                   parallel := fun _ _ _ => .ok "PAR", consensus := fun _ _ _ => .ok "CONS" },
          rag := none, mcp := none }
        ((orchestrateWithFollowup
          { gen := { sequential := fun _ _ _ => .ok "SEQ", hierarchical := fun _ _ _ => .ok "HIER",
                     parallel := fun _ _ _ => .ok "PAR", consensus := fun _ _ _ => .ok "CONS" },
            rag := none, mcp := none }
          { followup := fun _ => none, cache := fun _ => none }
          0 7 "tell me about jio fiber speed" "s1" "sequential").2.1)
        10 7 "tell me about jio fiber speed" "s1" "sequential").2.2 = [] :=
  cache_hit_second_call _ _ 0 10 7 "tell me about jio fiber speed" "s1" "sequential"
    rfl (by decide) rfl (by decide) (by decide)

/-- Counterexample to C4 as stated: when the generation dispatch raises on
the first call, the failed result is not cached — the second call re-runs
the pipeline (its collaborator trace is `["gen_sequential"]`, not empty)
and carries no `cached = true` flag, although the claim's hypotheses
(identical query and strategy, `skip_cache` false, no pending follow-up,
within the TTL) all hold. -/
theorem cache_hit_second_call_cex :
    (orchestrateWithFollowup
        { gen := { sequential := fun _ _ _ => .error "llm down",
                   hierarchical := fun _ _ _ => .error "llm down",
                   parallel := fun _ _ _ => .error "llm down",
                   consensus := fun _ _ _ => .error "llm down" },
          rag := none, mcp := none }
        ((orchestrateWithFollowup
          { gen := { sequential := fun _ _ _ => .error "llm down",
                     hierarchical := fun _ _ _ => .error "llm down",
                     parallel := fun _ _ _ => .error "llm down",
                     consensus := fun _ _ _ => .error "llm down" },
            rag := none, mcp := none }
          { followup := fun _ => none, cache := fun _ => none }
          0 7 "tell me about jio fiber speed" "s1" "sequential").2.1)
        10 7 "tell me about jio fiber speed" "s1" "sequential").2.2 = ["gen_sequential"] ∧
    (orchestrateWithFollowup
        { gen := { sequential := fun _ _ _ => .error "llm down",
                   hierarchical := fun _ _ _ => .error "llm down",
                   parallel := fun _ _ _ => .error "llm down",
                   consensus := fun _ _ _ => .error "llm down" },
          rag := none, mcp := none }
        ((orchestrateWithFollowup
          { gen := { sequential := fun _ _ _ => .error "llm down",
                     hierarchical := fun _ _ _ => .error "llm down",
                     parallel := fun _ _ _ => .error "llm down",
                     consensus := fun _ _ _ => .error "llm down" },
            rag := none, mcp := none }
          { followup := fun _ => none, cache := fun _ => none }
          0 7 "tell me about jio fiber speed" "s1" "sequential").2.1)
        10 7 "tell me about jio fiber speed" "s1" "sequential").1.metadata.cached = none := by
  constructor
  · rfl
  · rfl
